import Mathlib

/-!
Verification of the Project-Runsh core logic (shallow embedding).

The embedding covers the pieces of `src/icon_generator.py` and `src/main.py`
that the claims C1..C10 are about:

* the color model (`hex_to_rgb`, the `colorsys` HSV round trip used by
  `lighten_color` / `darken_color`, the gradient rows of `generate_icon`),
* `get_initials`,
* path helpers (`os.path.join`, `os.path.dirname`, `os.path.basename`
  restricted to POSIX semantics, which is all the POSIX branches use),
* the script templaters (`create_activation_script`, `create_xterm_launcher`,
  POSIX branches),
* the registry operations (`save_and_create_script`'s upsert,
  `load_apps`, `run_selected_app`, `create_desktop_file`).

Python floats are modelled by exact rationals; Python `int()` applied to a
nonnegative/arbitrary rational is modelled by truncation toward zero
(`pyTrunc`).  Python machine strings are modelled by Lean `String` /
`List Char`; `str.upper`, `str.lower` and whitespace tests are modelled on
the ASCII range, which covers every character the repository's templates and
tests use.
-/

namespace Runsh

/-- Python `int(x)` on a rational: truncation toward zero. -/
def pyTrunc (x : ℚ) : ℤ :=
  if 0 ≤ x then ⌊x⌋ else -⌊-x⌋

/-- Rounding to the nearest integer (ties up), the operation the spec claims
`lighten_color`/`darken_color` perform on each channel. -/
def specRound (x : ℚ) : ℤ := round x

/-- Model of `colorsys.rgb_to_hsv` (exact rationals for the float code).
Input channels are fractions in `[0,1]`; output is `(h, s, v)`.
Python's `% 1.0` on a float is the fractional part `Int.fract`. -/
def rgb_to_hsv (r g b : ℚ) : ℚ × ℚ × ℚ :=
  let maxc := max r (max g b)
  let minc := min r (min g b)
  let rangec := maxc - minc
  let v := maxc
  if minc = maxc then (0, 0, v)
  else
    let s := rangec / maxc
    let rc := (maxc - r) / rangec
    let gc := (maxc - g) / rangec
    let bc := (maxc - b) / rangec
    let h := if r = maxc then bc - gc
             else if g = maxc then 2 + rc - bc
             else 4 + gc - rc
    (Int.fract (h / 6), s, v)

/-- Model of `colorsys.hsv_to_rgb` (exact rationals for the float code).
`int(h*6.0)` truncates toward zero; Python `%` on ints is `Int.emod`. -/
def hsv_to_rgb (h s v : ℚ) : ℚ × ℚ × ℚ :=
  if s = 0 then (v, v, v)
  else
    let i0 : ℤ := pyTrunc (h * 6)
    let f : ℚ := h * 6 - i0
    let p := v * (1 - s)
    let q := v * (1 - s * f)
    let t := v * (1 - s * (1 - f))
    let i := i0 % 6
    if i = 0 then (v, t, p)
    else if i = 1 then (q, v, p)
    else if i = 2 then (p, v, t)
    else if i = 3 then (p, q, v)
    else if i = 4 then (t, p, v)
    else (v, p, q)

/-- The exact (pre-`int()`) channel values produced by
`IconGenerator.lighten_color`: HSV round trip with `v := min 1 (v+factor)`,
each channel scaled back to `[0,255]`. -/
def lightenExact (rgb : ℤ × ℤ × ℤ) (factor : ℚ) : ℚ × ℚ × ℚ :=
  let hsv := rgb_to_hsv ((rgb.1 : ℚ) / 255) ((rgb.2.1 : ℚ) / 255) ((rgb.2.2 : ℚ) / 255)
  let v := min 1 (hsv.2.2 + factor)
  let c := hsv_to_rgb hsv.1 hsv.2.1 v
  (c.1 * 255, c.2.1 * 255, c.2.2 * 255)

/-- The exact (pre-`int()`) channel values produced by
`IconGenerator.darken_color`: HSV round trip with `v := max 0 (v-factor)`. -/
def darkenExact (rgb : ℤ × ℤ × ℤ) (factor : ℚ) : ℚ × ℚ × ℚ :=
  let hsv := rgb_to_hsv ((rgb.1 : ℚ) / 255) ((rgb.2.1 : ℚ) / 255) ((rgb.2.2 : ℚ) / 255)
  let v := max 0 (hsv.2.2 - factor)
  let c := hsv_to_rgb hsv.1 hsv.2.1 v
  (c.1 * 255, c.2.1 * 255, c.2.2 * 255)

/-- Embedding of `IconGenerator.lighten_color` (src/icon_generator.py lines 63-69).
The final conversion is Python `int(...)`, i.e. truncation. -/
def lighten_color (rgb : ℤ × ℤ × ℤ) (factor : ℚ) : ℤ × ℤ × ℤ :=
  let c := lightenExact rgb factor
  (pyTrunc c.1, pyTrunc c.2.1, pyTrunc c.2.2)

/-- Embedding of `IconGenerator.darken_color` (src/icon_generator.py lines 71-77). -/
def darken_color (rgb : ℤ × ℤ × ℤ) (factor : ℚ) : ℤ × ℤ × ℤ :=
  let c := darkenExact rgb factor
  (pyTrunc c.1, pyTrunc c.2.1, pyTrunc c.2.2)

/-- The spec-claimed variant of `darken_color` that rounds each channel to
the nearest integer instead of truncating (claim C3's wording). -/
def darken_color_rounded (rgb : ℤ × ℤ × ℤ) (factor : ℚ) : ℤ × ℤ × ℤ :=
  let c := darkenExact rgb factor
  (specRound c.1, specRound c.2.1, specRound c.2.2)

/-- Row `y` of the gradient background written by
`IconGenerator.generate_icon` when `with_gradient` is set
(src/icon_generator.py lines 109-118): `ratio = y / size`, each channel is
`int(bg*(1-ratio) + darker*ratio)` with `darker = darken_color bg 0.15`.
All pixels of a row receive the same color. -/
def gradientRow (size : ℕ) (bg : ℤ × ℤ × ℤ) (y : ℕ) : ℤ × ℤ × ℤ :=
  let darker := darken_color bg (15/100)
  let ratio : ℚ := (y : ℚ) / (size : ℚ)
  (pyTrunc ((bg.1 : ℚ) * (1 - ratio) + (darker.1 : ℚ) * ratio),
   pyTrunc ((bg.2.1 : ℚ) * (1 - ratio) + (darker.2.1 : ℚ) * ratio),
   pyTrunc ((bg.2.2 : ℚ) * (1 - ratio) + (darker.2.2 : ℚ) * ratio))

/-! Python string primitives (ASCII model). -/

/-- The whitespace characters recognised by Python's `str.strip()` /
`str.split()` within the ASCII range. -/
def isPySpace (c : Char) : Bool :=
  c == ' ' || c == '\t' || c == '\n' || c == '\r' || c == '\x0b' || c == '\x0c'

/-- Python `str.upper()` on one ASCII character. -/
def pyToUpper (c : Char) : Char :=
  if 97 ≤ c.toNat ∧ c.toNat ≤ 122 then Char.ofNat (c.toNat - 32) else c

/-- Python `str.lower()` on one ASCII character. -/
def pyToLower (c : Char) : Char :=
  if 65 ≤ c.toNat ∧ c.toNat ≤ 90 then Char.ofNat (c.toNat + 32) else c

/-- Python `str.strip()`: remove leading and trailing whitespace. -/
def pyStrip (l : List Char) : List Char :=
  ((l.dropWhile isPySpace).reverse.dropWhile isPySpace).reverse

/-- Accumulator-based worker for `str.split()` (no separator argument):
split on runs of whitespace, producing no empty words. -/
def splitAux : List Char → List Char → List (List Char)
  | [], acc => if acc = [] then [] else [acc.reverse]
  | c :: rest, acc =>
    if isPySpace c then
      if acc = [] then splitAux rest [] else acc.reverse :: splitAux rest []
    else splitAux rest (c :: acc)

/-- Python `str.split()` with no separator. -/
def pySplit (l : List Char) : List (List Char) := splitAux l []

/-! The function `IconGenerator.get_initials` (src/icon_generator.py lines 38-50). -/

/-- The word list `text.strip().split()` computes. -/
def wordsOf (text : String) : List (List Char) := pySplit (pyStrip text.toList)

/-- Embedding of `IconGenerator.get_initials`.  `words[0][:2]` is `take 2`;
`words[0][0] + words[1][0]` is `take 1 ++ take 1` (every word produced by
`split()` is nonempty, so `take 1` is exactly the one-character string the
source indexes out). -/
def get_initials (text : String) : String :=
  match wordsOf text with
  | [] => "?"
  | [w] => String.mk ((w.take 2).map pyToUpper)
  | w1 :: w2 :: _ => String.mk ((w1.take 1 ++ w2.take 1).map pyToUpper)

/-! Python `int(s, 16)` and `IconGenerator.hex_to_rgb`. -/

/-- Value of a single hexadecimal digit (`0-9`, `a-f`, `A-F`). -/
def hexVal? (c : Char) : Option ℤ :=
  if 48 ≤ c.toNat ∧ c.toNat ≤ 57 then some ((c.toNat : ℤ) - 48)
  else if 97 ≤ c.toNat ∧ c.toNat ≤ 102 then some ((c.toNat : ℤ) - 87)
  else if 65 ≤ c.toNat ∧ c.toNat ≤ 70 then some ((c.toNat : ℤ) - 55)
  else none

/-- Digit run of a Python base-16 integer literal after the first digit:
single underscores are allowed between digits, never doubled or trailing. -/
def hexDigitsCore (acc : ℤ) : List Char → Option ℤ
  | [] => some acc
  | c :: rest =>
    if c = '_' then
      match rest with
      | [] => none
      | c2 :: rest2 =>
        match hexVal? c2 with
        | some d => hexDigitsCore (16 * acc + d) rest2
        | none => none
    else
      match hexVal? c with
      | some d => hexDigitsCore (16 * acc + d) rest
      | none => none

/-- Digit run of a Python base-16 integer literal: at least one digit,
no leading underscore. -/
def parseHexDigits : List Char → Option ℤ
  | [] => none
  | c :: rest =>
    match hexVal? c with
    | some d => hexDigitsCore d rest
    | none => none

/-- After a `0x`/`0X` prefix one underscore may separate the prefix from
the first digit. -/
def parseHexTail : List Char → Option ℤ
  | '_' :: rest => parseHexDigits rest
  | l => parseHexDigits l

/-- Body of a Python base-16 integer literal: optional `0x`/`0X` prefix,
then digits. -/
def parseHexBody (l : List Char) : Option ℤ :=
  match l with
  | c0 :: c1 :: rest =>
    if c0 = '0' ∧ (c1 = 'x' ∨ c1 = 'X') then parseHexTail rest
    else parseHexDigits l
  | _ => parseHexDigits l

/-- Optional sign in front of the literal body. -/
def parseSigned (l : List Char) : Option ℤ :=
  match l with
  | [] => parseHexDigits []
  | c :: rest =>
    if c = '+' then parseHexBody rest
    else if c = '-' then (parseHexBody rest).map (fun z => -z)
    else parseHexBody (c :: rest)

/-- Python `int(s, 16)`: surrounding whitespace is ignored; `none` models
the `ValueError` raised on anything that is not a base-16 integer literal. -/
def pyIntBase16 (l : List Char) : Option ℤ :=
  parseSigned (((l.dropWhile isPySpace).reverse.dropWhile isPySpace).reverse)

/-- Python slice `l[i:i+2]` (clamped at the end of the string). -/
def pySlice2 (l : List Char) (i : ℕ) : List Char := (l.drop i).take 2

/-- Core of `IconGenerator.hex_to_rgb` on the character list of the argument:
`hex_color.lstrip('#')` removes **all** leading `'#'` characters, then the
slices `[0:2]`, `[2:4]`, `[4:6]` are parsed with `int(_, 16)`.  The overall
`none` models the `ValueError` escaping the generator expression. -/
def hex_to_rgbCore (l : List Char) : Option (ℤ × ℤ × ℤ) :=
  let t := l.dropWhile (· == '#')
  match pyIntBase16 (pySlice2 t 0), pyIntBase16 (pySlice2 t 2), pyIntBase16 (pySlice2 t 4) with
  | some r, some g, some b => some (r, g, b)
  | _, _, _ => none

/-- Embedding of `IconGenerator.hex_to_rgb` (src/icon_generator.py lines 52-56). -/
def hex_to_rgb (s : String) : Option (ℤ × ℤ × ℤ) := hex_to_rgbCore s.toList

/-- The acceptance predicate claim C2 asserts for `hex_to_rgb`: an optional
single leading `'#'` followed by exactly six hexadecimal digits. -/
def claimValidHex6 (s : String) : Bool :=
  let t := match s.toList with
           | '#' :: rest => rest
           | l => l
  t.length == 6 && t.all (fun c => (hexVal? c).isSome)

/-! POSIX path helpers (`os.path` as used by the POSIX branches). -/

/-- Python `os.path.join(a, b)` (posixpath, two arguments). -/
def pyJoin (a b : String) : String :=
  if b.toList.head? = some '/' then b
  else if a = "" ∨ a.toList.getLast? = some '/' then a ++ b
  else a ++ "/" ++ b

/-- Python `posixpath.split(p)`: break at the final `'/'`; the head keeps no
trailing slashes unless it consists only of slashes. -/
def splitPath (l : List Char) : List Char × List Char :=
  let tail := (l.reverse.takeWhile (· ≠ '/')).reverse
  let head := l.take (l.length - tail.length)
  let head2 :=
    if head ≠ [] ∧ head.any (· ≠ '/') then (head.reverse.dropWhile (· = '/')).reverse
    else head
  (head2, tail)

/-- Python `os.path.dirname`. -/
def pyDirname (s : String) : String := String.mk (splitPath s.toList).1

/-- Python `os.path.basename`. -/
def pyBasename (s : String) : String := String.mk (splitPath s.toList).2

/-- The `safe_name` normalisation used for every artifact filename:
`app_name.lower().replace(' ', '_').replace('-', '_')`. -/
def safeName (s : String) : String :=
  String.mk ((((s.toList.map pyToLower).map
    (fun c => if c = ' ' then '_' else c)).map
    (fun c => if c = '-' then '_' else c)))

/-! Application descriptors (the dicts stored in `self.saved_apps`). -/

/-- One entry of the registry.  Optional fields model optional dict keys;
timestamps are abstract strings (the code only ever stores
`datetime.now().isoformat()` and compares nothing). -/
structure AppConfig where
  name : String
  venv : String
  script : String
  args : Option String
  workdir : Option String
  created : String
  last_run : Option String
  activation_script : Option String
  launcher_script : Option String
deriving DecidableEq, Repr

/-- Path of the activation script `create_activation_script` writes:
`<scripts_dir>/<safe_name>.sh` (src/main.py lines 703-706). -/
def activationPath (scriptsDir name : String) : String :=
  pyJoin scriptsDir (safeName name ++ ".sh")

/-- Path of the xterm launcher `create_xterm_launcher` writes:
`<scripts_dir>/launch_<safe_name>.sh` (src/main.py lines 767-770). -/
def launcherPath (scriptsDir name : String) : String :=
  pyJoin scriptsDir ("launch_" ++ safeName name ++ ".sh")

/-- The text of the POSIX activation script
(`create_activation_script`, src/main.py lines 731-752).
`workdir` and `args` default exactly as the source's
`app_config.get('args', '')` / `app_config.get('workdir', dirname(script))`. -/
def activationContent (cfg : AppConfig) : String :=
  let workdir := cfg.workdir.getD (pyDirname cfg.script)
  let args := cfg.args.getD ""
  "#!/bin/bash\n" ++
  "echo \"Running " ++ cfg.name ++ "...\"\n" ++
  "echo \"\"\n\n" ++
  "# Change to working directory\n" ++
  "cd \"" ++ workdir ++ "\"" ++ "\n\n" ++
  "# Activate virtual environment\n" ++
  "echo \"Activating virtual environment...\"\n" ++
  "source \"" ++ pyJoin (pyJoin cfg.venv "bin") "activate" ++ "\"" ++ "\n\n" ++
  "# Run the Python script\n" ++
  "echo \"Running script: " ++ pyBasename cfg.script ++ "\"\n" ++
  "python3 \"" ++ cfg.script ++ "\" " ++ args ++ "\n\n" ++
  "# Keep terminal open\n" ++
  "echo \"\"\n" ++
  "echo \"Script execution complete.\"\n" ++
  "read -p \"Press Enter to exit...\"\n"

/-! Registry operations. -/

/-- The replace-or-append step of `save_and_create_script`
(src/main.py lines 831-843): the first entry whose `name` equals the new
configuration's name is replaced in place; otherwise the new configuration
is appended. -/
def upsert (l : List AppConfig) (c : AppConfig) : List AppConfig :=
  match l with
  | [] => [c]
  | a :: rest => if a.name = c.name then c :: rest else a :: upsert rest c

/-- Registry names, in order. -/
def names (l : List AppConfig) : List String := l.map (fun a => a.name)

/-- Linear search used by `run_selected_app` / `load_selected_app`. -/
def findApp (l : List AppConfig) (n : String) : Option AppConfig :=
  l.find? (fun a => a.name = n)

/-- The registry state after `save_and_create_script` succeeds
(src/main.py lines 820-856) with form fields `name venv script args workdir`
at time `now`.  The freshly built `app_config` dict carries
`created = now` and `last_run = None`; lines 855-856 then record the two
generated script paths on the same dict object, which is the one sitting in
`self.saved_apps`. -/
def save_and_create_script (l : List AppConfig)
    (name venv script args workdir now scriptsDir : String) : List AppConfig :=
  upsert l
    { name := name, venv := venv, script := script,
      args := some args, workdir := some workdir,
      created := now, last_run := none,
      activation_script := some (activationPath scriptsDir name),
      launcher_script := some (launcherPath scriptsDir name) }

/-- Contents of the `apps.json` file as `load_apps` sees them. -/
inductive RegistryFile where
  | missing
  | corrupt
  | valid (apps : List AppConfig)

/-- Embedding of `load_apps` (src/main.py lines 1186-1195): a missing file leaves
`self.saved_apps` untouched (it is `[]` at startup, line 32); any exception
while reading/parsing resets it to `[]`; a parsable file replaces it. -/
def load_apps (prev : List AppConfig) : RegistryFile → List AppConfig
  | .missing => prev
  | .corrupt => []
  | .valid l => l

/-! The method `run_selected_app` (src/main.py lines 933-963). -/

/-- Observable actions of `run_selected_app`, in order: `persist` is a
`save_apps()` call (with the full registry written), `execScript` is the
`run_script_file` call on the given path. -/
inductive RunEvent where
  | persist (reg : List AppConfig)
  | execScript (path : String)
deriving DecidableEq, Repr

/-- The regenerate-and-run branch of `run_selected_app`
(lines 954-960): create both scripts, record their paths on the entry,
persist, then run the launcher. -/
def regenerateAndRun (scriptsDir : String) (pre rest : List AppConfig)
    (a1 : AppConfig) (reg1 : List AppConfig) : List AppConfig × List RunEvent :=
  let act := activationPath scriptsDir a1.name
  let launch := launcherPath scriptsDir a1.name
  let a2 := { a1 with activation_script := some act, launcher_script := some launch }
  let reg2 := pre.reverse ++ a2 :: rest
  (reg2, [.persist reg1, .persist reg2, .execScript launch])

/-- Worker for `run_selected_app`: walk the registry keeping the already
visited prefix (reversed) so `save_apps()` snapshots the whole list. -/
def runSelectedGo (scriptsDir : String) (ex : String → Bool) (now sel : String) :
    List AppConfig → List AppConfig → List AppConfig × List RunEvent
  | pre, [] => (pre.reverse, [])
  | pre, a :: rest =>
    if a.name = sel then
      let a1 := { a with last_run := some now }
      let reg1 := pre.reverse ++ a1 :: rest
      match a1.launcher_script with
      | some p =>
        if ex p then (reg1, [.persist reg1, .execScript p])
        else regenerateAndRun scriptsDir pre rest a1 reg1
      | none => regenerateAndRun scriptsDir pre rest a1 reg1
    else runSelectedGo scriptsDir ex now sel (a :: pre) rest

/-- Embedding of `run_selected_app` on the registry `l` with selected name `sel` at time
`now`; `ex` is the `os.path.exists` oracle.  Mirrors lines 944-963: update
`last_run` on the first matching entry, persist, then either run the
recorded launcher (if the key is present and the file exists) or create the
activation and launcher scripts, record them, persist again and run the
fresh launcher. -/
def run_selected_app (scriptsDir : String) (ex : String → Bool)
    (now sel : String) (l : List AppConfig) : List AppConfig × List RunEvent :=
  runSelectedGo scriptsDir ex now sel [] l

/-! The method `create_desktop_file` (src/main.py lines 1205-1223, 1292-1303). -/

/-- Script-generation side effects of `create_desktop_file`. -/
inductive GenEvent where
  | genActivation (path : String)
  | genLauncher (path : String)
deriving DecidableEq, Repr

/-- The launcher-resolution step of `create_desktop_file`
(lines 1215-1223) and the `Exec=` value it produces (line 1223/1296):
if the descriptor records a `launcher_script` the `Exec` command wraps that
path; otherwise **only** `create_activation_script` is invoked and its path
is used.  The returned event list records which scripts are written. -/
def create_desktop_file_exec (scriptsDir : String) (cfg : AppConfig) :
    String × List GenEvent :=
  match cfg.launcher_script with
  | some p => ("bash -i '" ++ p ++ "'", [])
  | none =>
    let act := activationPath scriptsDir cfg.name
    ("bash -i '" ++ act ++ "'", [.genActivation act])

/-- Substring relation used to state properties of generated script text. -/
def strContains (s t : String) : Prop := ∃ a b, s = a ++ t ++ b

/-- The descriptor of the spec's worked scenario (§8): app `Demo`, no
recorded artifacts yet. -/
def demoCfg : AppConfig :=
  { name := "Demo", venv := "/home/u/.venvs/demo", script := "/home/u/demo/app.py",
    args := some "--flag", workdir := none, created := "t0", last_run := none,
    activation_script := none, launcher_script := none }

/-- A registry entry created at time `t0` and run once at `r0`. -/
def oldCfg : AppConfig :=
  { name := "Demo", venv := "/home/u/.venvs/demo", script := "/home/u/demo/app.py",
    args := some "", workdir := some "/home/u/demo", created := "t0", last_run := some "r0",
    activation_script := some "/scripts/demo.sh", launcher_script := some "/scripts/launch_demo.sh" }

end Runsh

namespace Runsh

/-! Helper lemmas. -/

theorem upsert_of_not_mem (l : List AppConfig) (c : AppConfig)
    (h : c.name ∉ names l) : upsert l c = l ++ [c] := by
  induction l with
  | nil => rfl
  | cons a rest ih =>
    simp only [names, List.map_cons, List.mem_cons, not_or] at h
    simp only [upsert]
    rw [if_neg (fun he => h.1 he.symm), ih (by simpa [names] using h.2)]
    simp

theorem upsert_of_mem (l : List AppConfig) (c : AppConfig)
    (h : c.name ∈ names l) :
    ∃ l1 old l2, l = l1 ++ old :: l2 ∧ old.name = c.name ∧
      c.name ∉ names l1 ∧ upsert l c = l1 ++ c :: l2 := by
  induction l with
  | nil => simp [names] at h
  | cons a rest ih =>
    by_cases ha : a.name = c.name
    · exact ⟨[], a, rest, by simp, ha, by simp [names], by simp [upsert, if_pos ha]⟩
    · have h' : c.name ∈ names rest := by
        rcases (by simpa [names] using h : c.name = a.name ∨ c.name ∈ names rest) with h1 | h2
        · exact absurd h1.symm ha
        · exact h2
      obtain ⟨l1, old, l2, heq, hold, hnm, hup⟩ := ih h'
      refine ⟨a :: l1, old, l2, by simp [heq], hold, ?_, ?_⟩
      · simp only [names, List.map_cons, List.mem_cons, not_or]
        exact ⟨fun hc => ha hc.symm, hnm⟩
      · simp [upsert, if_neg ha, hup]

theorem names_upsert (l : List AppConfig) (c : AppConfig) :
    names (upsert l c) =
      if c.name ∈ names l then names l else names l ++ [c.name] := by
  induction l with
  | nil => simp [upsert, names]
  | cons a rest ih =>
    by_cases ha : a.name = c.name
    · simp [upsert, if_pos ha, names, ha]
    · have hne : ¬ c.name = a.name := fun hc => ha hc.symm
      by_cases hm : c.name ∈ names rest
      · simp_all [upsert, if_neg ha, names, hne, hm]
      · simp_all [upsert, if_neg ha, names, hne, hm]
        split <;> rfl

theorem nodup_names_upsert (l : List AppConfig) (c : AppConfig)
    (h : (names l).Nodup) : (names (upsert l c)).Nodup := by
  rw [names_upsert]
  split_ifs with hm
  · exact h
  · simpa [List.nodup_append] using ⟨h, fun hmem => hm hmem⟩

theorem nodup_names_foldl_upsert (cs : List AppConfig) :
    ∀ l, (names l).Nodup → (names (List.foldl upsert l cs)).Nodup := by
  induction cs with
  | nil => intro l h; simpa using h
  | cons c cs ih => intro l h; exact ih _ (nodup_names_upsert l c h)

theorem findApp_upsert (l : List AppConfig) (c : AppConfig) :
    findApp (upsert l c) c.name = some c := by
  induction l with
  | nil => simp [upsert, findApp]
  | cons a rest ih =>
    by_cases h : a.name = c.name
    · simp [upsert, if_pos h, findApp]
    · simpa [upsert, if_neg h, findApp, h] using ih

theorem runSelectedGo_created (scriptsDir : String) (ex : String → Bool)
    (now sel : String) :
    ∀ (rest pre : List AppConfig),
      ((runSelectedGo scriptsDir ex now sel pre rest).1).map (fun a => a.created) =
        (pre.reverse ++ rest).map (fun a => a.created) := by
  intro rest
  induction rest with
  | nil => intro pre; simp [runSelectedGo]
  | cons a rest ih =>
    intro pre
    by_cases h : a.name = sel
    · simp only [runSelectedGo, if_pos h]
      cases hls : a.launcher_script with
      | none => simp [regenerateAndRun]
      | some p =>
        by_cases hex : ex p
        · simp [hls, hex]
        · simp [hls, hex, regenerateAndRun]
    · simp only [runSelectedGo, if_neg h]
      rw [ih (a :: pre)]
      simp

theorem runSelectedGo_append (scriptsDir : String) (ex : String → Bool)
    (now sel : String) :
    ∀ (pre acc rest : List AppConfig), (∀ x ∈ pre, x.name ≠ sel) →
      runSelectedGo scriptsDir ex now sel acc (pre ++ rest) =
        runSelectedGo scriptsDir ex now sel (pre.reverse ++ acc) rest := by
  intro pre
  induction pre with
  | nil => intro acc rest _; simp
  | cons a pre ih =>
    intro acc rest h
    have ha : ¬ (a.name = sel) := h a (by simp)
    simp only [List.cons_append, runSelectedGo, if_neg ha, List.append_eq]
    rw [ih (a :: acc) rest (fun x hx => h x (by simp [hx]))]
    congr 1
    simp


/-- A character with a hex value is not whitespace, a sign, an underscore,
a hash, or a base prefix letter. -/
theorem hexVal?_char_facts {c : Char} {v : ℤ} (h : hexVal? c = some v) :
    isPySpace c = false ∧ c ≠ '#' ∧ c ≠ '+' ∧ c ≠ '-' ∧ c ≠ '_' ∧
    c ≠ 'x' ∧ c ≠ 'X' := by
  have hr : (48 ≤ c.toNat ∧ c.toNat ≤ 57) ∨ (97 ≤ c.toNat ∧ c.toNat ≤ 102) ∨
      (65 ≤ c.toNat ∧ c.toNat ≤ 70) := by
    unfold hexVal? at h
    split_ifs at h with h1 h2 h3
    · exact Or.inl h1
    · exact Or.inr (Or.inl h2)
    · exact Or.inr (Or.inr h3)
  refine ⟨?_, ?_, ?_, ?_, ?_, ?_, ?_⟩
  · rw [Bool.eq_false_iff]
    intro hsp
    unfold isPySpace at hsp
    simp only [Bool.or_eq_true, beq_iff_eq] at hsp
    rcases hsp with ((((hc | hc) | hc) | hc) | hc) | hc <;> subst hc <;>
      revert hr <;> decide
  all_goals rintro rfl
  all_goals revert hr
  all_goals decide

/-- Python `int(s, 16)` on a two-hex-digit string. -/
theorem pyIntBase16_pair {c1 c2 : Char} {v1 v2 : ℤ}
    (h1 : hexVal? c1 = some v1) (h2 : hexVal? c2 = some v2) :
    pyIntBase16 [c1, c2] = some (16 * v1 + v2) := by
  obtain ⟨s1, hh1, hp1, hm1, hu1, hx1, hX1⟩ := hexVal?_char_facts h1
  obtain ⟨s2, hh2, hp2, hm2, hu2, hx2, hX2⟩ := hexVal?_char_facts h2
  unfold pyIntBase16
  have d1 : List.dropWhile isPySpace [c1, c2] = [c1, c2] := by
    simp [List.dropWhile, s1]
  rw [d1, List.reverse_cons]
  have d2 : List.dropWhile isPySpace [c2, c1] = [c2, c1] := by
    simp [List.dropWhile, s2]
  simp only [List.reverse_nil, List.nil_append, List.singleton_append, d2,
    List.reverse_cons]
  simp [parseSigned, parseHexBody, parseHexDigits, hexDigitsCore,
    h1, h2, hp1, hm1, hu2, hx2, hX2]

end Runsh

namespace Runsh

/-! Claim theorems. -/

/-- C7: `upsert` (the replace-or-append step of `save_and_create_script`)
replaces an existing entry of the same name at its original position and
never appends a duplicate; a new name is appended; name-uniqueness is
preserved, and any sequence of upserts starting from the empty registry
yields pairwise distinct names in insertion order. -/
theorem C7_upsert_registry :
    (∀ (l : List AppConfig) (c : AppConfig), c.name ∉ names l →
      upsert l c = l ++ [c]) ∧
    (∀ (l : List AppConfig) (c : AppConfig), c.name ∈ names l →
      ∃ l1 old l2, l = l1 ++ old :: l2 ∧ old.name = c.name ∧
        c.name ∉ names l1 ∧ upsert l c = l1 ++ c :: l2) ∧
    (∀ (l : List AppConfig) (c : AppConfig), (names l).Nodup →
      (names (upsert l c)).Nodup) ∧
    (∀ cs : List AppConfig, (names (List.foldl upsert [] cs)).Nodup) :=
  ⟨upsert_of_not_mem, upsert_of_mem, nodup_names_upsert,
   fun cs => nodup_names_foldl_upsert cs [] (by simp [names])⟩

/-- Witness for C7 at a concrete input. -/
theorem C7_upsert_registry_witness : upsert [] demoCfg = [demoCfg] :=
  C7_upsert_registry.1 [] demoCfg (by simp [names])

/-- C5 counterexample: saving over an existing name does **not** preserve
the original `created` timestamp — `save_and_create_script` builds a fresh
dict with `created = now` and replaces the entry with it
(src/main.py lines 820-843). -/
theorem C5_counterexample :
    (findApp (save_and_create_script [oldCfg] "Demo" "/home/u/.venvs/demo"
        "/home/u/demo/app.py" "--flag" "/home/u/demo" "t1" "/scripts") "Demo").map
      (fun a => a.created) = some "t1" ∧
    oldCfg.created = "t0" ∧ ("t1" : String) ≠ "t0" := by
  refine ⟨by decide, rfl, by decide⟩

/-- C5 amended: `created` is set at every save — upserting a descriptor
under an existing name replaces the whole entry, resetting `created` (and
`last_run`) to the save-time values; launching through the registry
(`run_selected_app`) never changes any entry's `created`. -/
theorem C5_amended_created :
    (∀ (scriptsDir : String) (ex : String → Bool) (now sel : String)
        (l : List AppConfig),
      ((run_selected_app scriptsDir ex now sel l).1).map (fun a => a.created) =
        l.map (fun a => a.created)) ∧
    (∀ (l : List AppConfig) (name venv script args workdir now scriptsDir : String),
      (findApp (save_and_create_script l name venv script args workdir now scriptsDir)
          name).map (fun a => a.created) = some now) := by
  constructor
  · intro scriptsDir ex now sel l
    simpa using runSelectedGo_created scriptsDir ex now sel l []
  · intro l name venv script args workdir now scriptsDir
    rw [save_and_create_script, findApp_upsert]
    rfl

/-- C8: at startup (`self.saved_apps = []`, src/main.py line 32) a missing
registry file leaves the collection empty, an unparsable file resets it to
empty, and a parsable file loads it; `load_apps` is total, so no error
escapes. -/
theorem C8_load_apps :
    load_apps [] .missing = [] ∧
    (∀ prev, load_apps prev .corrupt = []) ∧
    (∀ apps, load_apps [] (.valid apps) = apps) :=
  ⟨rfl, fun _ => rfl, fun _ => rfl⟩

/-- C9: `get_initials` on the spec's five test vectors, and its general
shape: zero words give `"?"`, one word gives its first two characters
uppercased, two or more words give the uppercased first characters of the
first two words. -/
theorem C9_get_initials :
    get_initials "" = "?" ∧ get_initials "x" = "X" ∧ get_initials "ab" = "AB" ∧
    get_initials "My App" = "MA" ∧ get_initials "  multi   word name  " = "MW" ∧
    (∀ t : String, wordsOf t = [] → get_initials t = "?") ∧
    (∀ (t : String) (w : List Char), wordsOf t = [w] →
      get_initials t = String.mk ((w.take 2).map pyToUpper)) ∧
    (∀ (t : String) (w1 w2 : List Char) (ws : List (List Char)),
      wordsOf t = w1 :: w2 :: ws →
      get_initials t = String.mk ((w1.take 1 ++ w2.take 1).map pyToUpper)) := by
  refine ⟨by decide, by decide, by decide, by decide, by decide, ?_, ?_, ?_⟩
  · intro t h; simp [get_initials, h]
  · intro t w h; simp [get_initials, h]
  · intro t w1 w2 ws h; simp [get_initials, h]

/-- Witness for C9 at a concrete input. -/
theorem C9_get_initials_witness :
    get_initials "hello" = String.mk (("hello".toList.take 2).map pyToUpper) :=
  C9_get_initials.2.2.2.2.2.2.1 "hello" "hello".toList (by decide)

/-- C10: launching a saved app through the registry first records
`last_run = now` on the matching entry and persists the whole registry,
then: if a launcher script is recorded and exists, it is executed; otherwise
the activation and launcher scripts are regenerated, recorded on the entry,
the registry persisted again, and only then is the fresh launcher executed. -/
theorem C10_run_selected_app (scriptsDir : String) (ex : String → Bool)
    (now sel : String) (pre post : List AppConfig) (a : AppConfig)
    (hname : a.name = sel) (hpre : ∀ x ∈ pre, x.name ≠ sel) :
    (∀ p, a.launcher_script = some p → ex p = true →
      run_selected_app scriptsDir ex now sel (pre ++ a :: post) =
        (pre ++ { a with last_run := some now } :: post,
         [.persist (pre ++ { a with last_run := some now } :: post),
          .execScript p])) ∧
    ((a.launcher_script = none ∨ (∃ p, a.launcher_script = some p ∧ ex p = false)) →
      run_selected_app scriptsDir ex now sel (pre ++ a :: post) =
        (pre ++ { a with
                    last_run := some now,
                    activation_script := some (activationPath scriptsDir a.name),
                    launcher_script := some (launcherPath scriptsDir a.name) } :: post,
         [.persist (pre ++ { a with last_run := some now } :: post),
          .persist (pre ++ { a with
                    last_run := some now,
                    activation_script := some (activationPath scriptsDir a.name),
                    launcher_script := some (launcherPath scriptsDir a.name) } :: post),
          .execScript (launcherPath scriptsDir a.name)])) := by
  have key : run_selected_app scriptsDir ex now sel (pre ++ a :: post) =
      runSelectedGo scriptsDir ex now sel pre.reverse (a :: post) := by
    rw [run_selected_app, runSelectedGo_append scriptsDir ex now sel pre [] (a :: post) hpre]
    simp
  constructor
  · intro p hp hex
    rw [key]
    simp [runSelectedGo, if_pos hname, hp, hex]
  · intro hcase
    rw [key]
    rcases hcase with hnone | ⟨p, hp, hex⟩
    · simp [runSelectedGo, if_pos hname, hnone, regenerateAndRun]
    · simp [runSelectedGo, if_pos hname, hp, hex, regenerateAndRun]

/-- Witness for C10 at a concrete input (entry without a recorded
launcher script). -/
theorem C10_run_selected_app_witness :
    run_selected_app "/s" (fun _ => false) "t1" "Demo" [demoCfg] =
      ([{ demoCfg with
            last_run := some "t1",
            activation_script := some (activationPath "/s" demoCfg.name),
            launcher_script := some (launcherPath "/s" demoCfg.name) }],
       [.persist [{ demoCfg with last_run := some "t1" }],
        .persist [{ demoCfg with
            last_run := some "t1",
            activation_script := some (activationPath "/s" demoCfg.name),
            launcher_script := some (launcherPath "/s" demoCfg.name) }],
        .execScript (launcherPath "/s" demoCfg.name)]) := by
  have h := (C10_run_selected_app "/s" (fun _ => false) "t1" "Demo" [] []
      demoCfg (by decide) (by simp)).2 (Or.inl (by decide))
  simpa using h

/-- C1 (evaluating the code at the failing input): for a descriptor with no
recorded `launcher_script`, `create_desktop_file` invokes only
`create_activation_script` and builds the `Exec` command around the
activation script's path — the launcher script
(`<scripts>/launch_demo.sh`) is neither generated nor referenced. -/
theorem C1_desktop_exec_missing_launcher :
    create_desktop_file_exec "/scripts" demoCfg =
      ("bash -i '/scripts/demo.sh'", [.genActivation "/scripts/demo.sh"]) ∧
    launcherPath "/scripts" demoCfg.name = "/scripts/launch_demo.sh" ∧
    ("bash -i '/scripts/demo.sh'" : String) ≠ "bash -i '/scripts/launch_demo.sh'" :=
  ⟨by decide, by decide, by decide⟩

set_option maxRecDepth 8192 in
/-- C6: every POSIX activation script starts with the bash shebang,
announces the app name, `cd`s into the resolved working directory, sources
`<venv>/bin/activate`, invokes `python3` on the quoted script path with the
raw args appended, and ends with the prompt-and-wait line; instantiated on
the spec's `Demo` descriptor it contains the two literal command lines the
claim quotes. -/
theorem C6_activation_script :
    (∀ cfg : AppConfig,
      (∃ r, activationContent cfg = "#!/bin/bash\n" ++ r) ∧
      strContains (activationContent cfg)
        ("echo \"Running " ++ cfg.name ++ "...\"\n") ∧
      strContains (activationContent cfg)
        ("cd \"" ++ cfg.workdir.getD (pyDirname cfg.script) ++ "\"") ∧
      strContains (activationContent cfg)
        ("source \"" ++ pyJoin (pyJoin cfg.venv "bin") "activate" ++ "\"") ∧
      strContains (activationContent cfg)
        ("python3 \"" ++ cfg.script ++ "\" " ++ cfg.args.getD "") ∧
      (∃ q, activationContent cfg = q ++ "read -p \"Press Enter to exit...\"\n")) ∧
    strContains (activationContent demoCfg)
      "source \"/home/u/.venvs/demo/bin/activate\"" ∧
    strContains (activationContent demoCfg)
      "python3 \"/home/u/demo/app.py\" --flag" := by
  refine ⟨fun cfg => ⟨?_, ?_, ?_, ?_, ?_, ?_⟩, ?_, ?_⟩
  · exact ⟨"echo \"Running " ++ cfg.name ++ "...\"\n" ++
      "echo \"\"\n\n" ++ "# Change to working directory\n" ++
      "cd \"" ++ cfg.workdir.getD (pyDirname cfg.script) ++ "\"" ++ "\n\n" ++
      "# Activate virtual environment\n" ++
      "echo \"Activating virtual environment...\"\n" ++
      "source \"" ++ pyJoin (pyJoin cfg.venv "bin") "activate" ++ "\"" ++ "\n\n" ++
      "# Run the Python script\n" ++
      "echo \"Running script: " ++ pyBasename cfg.script ++ "\"\n" ++
      "python3 \"" ++ cfg.script ++ "\" " ++ cfg.args.getD "" ++ "\n\n" ++
      "# Keep terminal open\n" ++ "echo \"\"\n" ++
      "echo \"Script execution complete.\"\n" ++
      "read -p \"Press Enter to exit...\"\n",
      by simp only [activationContent, String.append_assoc]⟩
  · exact ⟨"#!/bin/bash\n",
      "echo \"\"\n\n" ++ "# Change to working directory\n" ++
      "cd \"" ++ cfg.workdir.getD (pyDirname cfg.script) ++ "\"" ++ "\n\n" ++
      "# Activate virtual environment\n" ++
      "echo \"Activating virtual environment...\"\n" ++
      "source \"" ++ pyJoin (pyJoin cfg.venv "bin") "activate" ++ "\"" ++ "\n\n" ++
      "# Run the Python script\n" ++
      "echo \"Running script: " ++ pyBasename cfg.script ++ "\"\n" ++
      "python3 \"" ++ cfg.script ++ "\" " ++ cfg.args.getD "" ++ "\n\n" ++
      "# Keep terminal open\n" ++ "echo \"\"\n" ++
      "echo \"Script execution complete.\"\n" ++
      "read -p \"Press Enter to exit...\"\n",
      by simp only [activationContent, String.append_assoc]⟩
  · exact ⟨"#!/bin/bash\n" ++ "echo \"Running " ++ cfg.name ++ "...\"\n" ++
      "echo \"\"\n\n" ++ "# Change to working directory\n",
      "\n\n" ++ "# Activate virtual environment\n" ++
      "echo \"Activating virtual environment...\"\n" ++
      "source \"" ++ pyJoin (pyJoin cfg.venv "bin") "activate" ++ "\"" ++ "\n\n" ++
      "# Run the Python script\n" ++
      "echo \"Running script: " ++ pyBasename cfg.script ++ "\"\n" ++
      "python3 \"" ++ cfg.script ++ "\" " ++ cfg.args.getD "" ++ "\n\n" ++
      "# Keep terminal open\n" ++ "echo \"\"\n" ++
      "echo \"Script execution complete.\"\n" ++
      "read -p \"Press Enter to exit...\"\n",
      by simp only [activationContent, String.append_assoc]⟩
  · exact ⟨"#!/bin/bash\n" ++ "echo \"Running " ++ cfg.name ++ "...\"\n" ++
      "echo \"\"\n\n" ++ "# Change to working directory\n" ++
      "cd \"" ++ cfg.workdir.getD (pyDirname cfg.script) ++ "\"" ++ "\n\n" ++
      "# Activate virtual environment\n" ++
      "echo \"Activating virtual environment...\"\n",
      "\n\n" ++ "# Run the Python script\n" ++
      "echo \"Running script: " ++ pyBasename cfg.script ++ "\"\n" ++
      "python3 \"" ++ cfg.script ++ "\" " ++ cfg.args.getD "" ++ "\n\n" ++
      "# Keep terminal open\n" ++ "echo \"\"\n" ++
      "echo \"Script execution complete.\"\n" ++
      "read -p \"Press Enter to exit...\"\n",
      by simp only [activationContent, String.append_assoc]⟩
  · exact ⟨"#!/bin/bash\n" ++ "echo \"Running " ++ cfg.name ++ "...\"\n" ++
      "echo \"\"\n\n" ++ "# Change to working directory\n" ++
      "cd \"" ++ cfg.workdir.getD (pyDirname cfg.script) ++ "\"" ++ "\n\n" ++
      "# Activate virtual environment\n" ++
      "echo \"Activating virtual environment...\"\n" ++
      "source \"" ++ pyJoin (pyJoin cfg.venv "bin") "activate" ++ "\"" ++ "\n\n" ++
      "# Run the Python script\n" ++
      "echo \"Running script: " ++ pyBasename cfg.script ++ "\"\n",
      "\n\n" ++ "# Keep terminal open\n" ++ "echo \"\"\n" ++
      "echo \"Script execution complete.\"\n" ++
      "read -p \"Press Enter to exit...\"\n",
      by simp only [activationContent, String.append_assoc]⟩
  · exact ⟨"#!/bin/bash\n" ++ "echo \"Running " ++ cfg.name ++ "...\"\n" ++
      "echo \"\"\n\n" ++ "# Change to working directory\n" ++
      "cd \"" ++ cfg.workdir.getD (pyDirname cfg.script) ++ "\"" ++ "\n\n" ++
      "# Activate virtual environment\n" ++
      "echo \"Activating virtual environment...\"\n" ++
      "source \"" ++ pyJoin (pyJoin cfg.venv "bin") "activate" ++ "\"" ++ "\n\n" ++
      "# Run the Python script\n" ++
      "echo \"Running script: " ++ pyBasename cfg.script ++ "\"\n" ++
      "python3 \"" ++ cfg.script ++ "\" " ++ cfg.args.getD "" ++ "\n\n" ++
      "# Keep terminal open\n" ++ "echo \"\"\n" ++
      "echo \"Script execution complete.\"\n",
      by simp only [activationContent, String.append_assoc]⟩
  · exact ⟨"#!/bin/bash\necho \"Running Demo...\"\necho \"\"\n\n# Change to working directory\ncd \"/home/u/demo\"\n\n# Activate virtual environment\necho \"Activating virtual environment...\"\n",
      "\n\n# Run the Python script\necho \"Running script: app.py\"\npython3 \"/home/u/demo/app.py\" --flag\n\n# Keep terminal open\necho \"\"\necho \"Script execution complete.\"\nread -p \"Press Enter to exit...\"\n",
      by decide⟩
  · exact ⟨"#!/bin/bash\necho \"Running Demo...\"\necho \"\"\n\n# Change to working directory\ncd \"/home/u/demo\"\n\n# Activate virtual environment\necho \"Activating virtual environment...\"\nsource \"/home/u/.venvs/demo/bin/activate\"\n\n# Run the Python script\necho \"Running script: app.py\"\n",
      "\n\n# Keep terminal open\necho \"\"\necho \"Script execution complete.\"\nread -p \"Press Enter to exit...\"\n",
      by decide⟩

end Runsh

namespace Runsh

/-- C2 counterexample: `"12345"` is not an optional-`'#'`-plus-six-hex-digits
string, yet `hex_to_rgb` returns a value for it (the third channel parsed
from the single digit `'5'`) instead of failing. -/
theorem C2_counterexample :
    claimValidHex6 "12345" = false ∧ hex_to_rgb "12345" = some (18, 52, 5) :=
  ⟨by decide, by decide⟩

/-- C2 amended: `hex_to_rgb` strips **all** leading `'#'` characters and
parses the slices `[0:2]`, `[2:4]`, `[4:6]` as Python base-16 integers.
Every string of at least six hex digits (after stripping) yields the triple
of the first six digits — characters past the sixth are ignored, so the
map is not limited to exactly-six-digit strings; it fails (ValueError) iff
one of the three slices is not a base-16 literal. -/
theorem C2_amended_hex_to_rgb :
    (∀ (c1 c2 c3 c4 c5 c6 : Char) (v1 v2 v3 v4 v5 v6 : ℤ) (rest : List Char),
      hexVal? c1 = some v1 → hexVal? c2 = some v2 → hexVal? c3 = some v3 →
      hexVal? c4 = some v4 → hexVal? c5 = some v5 → hexVal? c6 = some v6 →
      hex_to_rgb (String.mk (c1 :: c2 :: c3 :: c4 :: c5 :: c6 :: rest)) =
        some (16 * v1 + v2, 16 * v3 + v4, 16 * v5 + v6)) ∧
    (∀ l : List Char, hex_to_rgbCore ('#' :: l) = hex_to_rgbCore l) ∧
    (∀ l : List Char, hex_to_rgbCore l = none ↔
      (pyIntBase16 (pySlice2 (l.dropWhile (· == '#')) 0) = none ∨
       pyIntBase16 (pySlice2 (l.dropWhile (· == '#')) 2) = none ∨
       pyIntBase16 (pySlice2 (l.dropWhile (· == '#')) 4) = none)) := by
  refine ⟨?_, ?_, ?_⟩
  · intro c1 c2 c3 c4 c5 c6 v1 v2 v3 v4 v5 v6 rest h1 h2 h3 h4 h5 h6
    obtain ⟨-, hh1, -, -, -, -, -⟩ := hexVal?_char_facts h1
    show hex_to_rgbCore (c1 :: c2 :: c3 :: c4 :: c5 :: c6 :: rest) = _
    have hb : (c1 == '#') = false := beq_eq_false_iff_ne.mpr hh1
    have hd : List.dropWhile (fun c => c == '#')
        (c1 :: c2 :: c3 :: c4 :: c5 :: c6 :: rest) =
        c1 :: c2 :: c3 :: c4 :: c5 :: c6 :: rest := by
      simp [List.dropWhile, hb]
    simp only [hex_to_rgbCore]
    rw [hd]
    have s0 : pySlice2 (c1 :: c2 :: c3 :: c4 :: c5 :: c6 :: rest) 0 = [c1, c2] := by
      simp [pySlice2]
    have s2 : pySlice2 (c1 :: c2 :: c3 :: c4 :: c5 :: c6 :: rest) 2 = [c3, c4] := by
      simp [pySlice2]
    have s4 : pySlice2 (c1 :: c2 :: c3 :: c4 :: c5 :: c6 :: rest) 4 = [c5, c6] := by
      simp [pySlice2, List.drop]
    rw [s0, s2, s4, pyIntBase16_pair h1 h2, pyIntBase16_pair h3 h4,
      pyIntBase16_pair h5 h6]
  · intro l
    simp only [hex_to_rgbCore]
    simp [List.dropWhile]
  · intro l
    simp only [hex_to_rgbCore]
    rcases hA : pyIntBase16 (pySlice2 (l.dropWhile (· == '#')) 0) with _ | a <;>
      rcases hB : pyIntBase16 (pySlice2 (l.dropWhile (· == '#')) 2) with _ | b <;>
        rcases hC : pyIntBase16 (pySlice2 (l.dropWhile (· == '#')) 4) with _ | c <;>
          simp [hA, hB, hC]

/-- Witness for C2 at the spec's blue `4285F4`. -/
theorem C2_amended_hex_to_rgb_witness :
    hex_to_rgb (String.mk ['4', '2', '8', '5', 'F', '4']) =
      some (16 * 4 + 2, 16 * 8 + 5, 16 * 15 + 4) :=
  C2_amended_hex_to_rgb.1 '4' '2' '8' '5' 'F' '4' 4 2 8 5 15 4 []
    (by decide) (by decide) (by decide) (by decide) (by decide) (by decide)

end Runsh

namespace Runsh

/-- Python `int()` of a nonnegative rational is its floor. -/
theorem pyTrunc_of_nonneg {x : ℚ} (h : 0 ≤ x) : pyTrunc x = ⌊x⌋ := if_pos h

/-- Python `int()` of an integer-valued rational is that integer. -/
theorem pyTrunc_intCast (n : ℤ) : pyTrunc (n : ℚ) = n := by
  unfold pyTrunc
  split_ifs with h
  · exact Int.floor_intCast n
  · rw [← Int.cast_neg, Int.floor_intCast]; ring

/-- The hue computed by `rgb_to_hsv` is nonnegative. -/
theorem rgb_to_hsv_h_nonneg (r g b : ℚ) : 0 ≤ (rgb_to_hsv r g b).1 := by
  simp only [rgb_to_hsv]
  split_ifs <;> simp [Int.fract_nonneg]

/-- The saturation computed by `rgb_to_hsv` lies in `[0,1]` for
nonnegative channels. -/
theorem rgb_to_hsv_s_mem (r g b : ℚ) (hr : 0 ≤ r) (hg : 0 ≤ g) (hb : 0 ≤ b) :
    0 ≤ (rgb_to_hsv r g b).2.1 ∧ (rgb_to_hsv r g b).2.1 ≤ 1 := by
  simp only [rgb_to_hsv]
  by_cases hmm : min r (min g b) = max r (max g b)
  · rw [if_pos hmm]
    simp
  · rw [if_neg hmm]
    have hm0 : 0 ≤ min r (min g b) := le_min hr (le_min hg hb)
    have hmM : min r (min g b) ≤ max r (max g b) :=
      le_trans (min_le_left _ _) (le_max_left _ _)
    have hM0 : 0 < max r (max g b) :=
      lt_of_le_of_lt hm0 (lt_of_le_of_ne hmM hmm)
    constructor
    · exact div_nonneg (by linarith) hM0.le
    · show (max r (max g b) - min r (min g b)) / max r (max g b) ≤ 1
      rw [div_le_one hM0]
      linarith

/-- The value channel computed by `rgb_to_hsv` is nonnegative. -/
theorem rgb_to_hsv_v_nonneg (r g b : ℚ) (hr : 0 ≤ r) :
    0 ≤ (rgb_to_hsv r g b).2.2 := by
  simp only [rgb_to_hsv]
  split_ifs <;> exact le_trans hr (le_max_left _ _)

/-- The function `hsv_to_rgb` yields nonnegative channels for `h ≥ 0`, `s ∈ [0,1]`,
`v ≥ 0`. -/
theorem hsv_to_rgb_nonneg (h s v : ℚ) (hh : 0 ≤ h) (hs0 : 0 ≤ s) (hs1 : s ≤ 1)
    (hv : 0 ≤ v) : 0 ≤ (hsv_to_rgb h s v).1 ∧ 0 ≤ (hsv_to_rgb h s v).2.1 ∧
    0 ≤ (hsv_to_rgb h s v).2.2 := by
  simp only [hsv_to_rgb]
  by_cases h0 : s = 0
  · rw [if_pos h0]
    exact ⟨hv, hv, hv⟩
  · rw [if_neg h0]
    have h6 : 0 ≤ h * 6 := by positivity
    rw [pyTrunc_of_nonneg h6]
    have hf0 : 0 ≤ h * 6 - (⌊h * 6⌋ : ℚ) := sub_nonneg.mpr (Int.floor_le _)
    have hf1 : h * 6 - (⌊h * 6⌋ : ℚ) ≤ 1 := by
      rw [Int.self_sub_floor]
      exact (Int.fract_lt_one _).le
    have hsf : s * (h * 6 - (⌊h * 6⌋ : ℚ)) ≤ 1 := mul_le_one₀ hs1 hf0 hf1
    have hsf2 : s * (1 - (h * 6 - (⌊h * 6⌋ : ℚ))) ≤ 1 :=
      mul_le_one₀ hs1 (by linarith) (by linarith)
    have hp : 0 ≤ v * (1 - s) := mul_nonneg hv (by linarith)
    have hq : 0 ≤ v * (1 - s * (h * 6 - (⌊h * 6⌋ : ℚ))) :=
      mul_nonneg hv (by linarith)
    have ht : 0 ≤ v * (1 - s * (1 - (h * 6 - (⌊h * 6⌋ : ℚ)))) :=
      mul_nonneg hv (by linarith)
    split_ifs <;> exact ⟨by assumption, by assumption, by assumption⟩

/-- The exact darkened channels are nonnegative for nonnegative input
channels. -/
theorem darkenExact_nonneg (rgb : ℤ × ℤ × ℤ) (factor : ℚ)
    (hr : 0 ≤ rgb.1) (hg : 0 ≤ rgb.2.1) (hb : 0 ≤ rgb.2.2) :
    0 ≤ (darkenExact rgb factor).1 ∧ 0 ≤ (darkenExact rgb factor).2.1 ∧
    0 ≤ (darkenExact rgb factor).2.2 := by
  simp only [darkenExact]
  have hr' : (0:ℚ) ≤ (rgb.1 : ℚ) / 255 := by positivity
  have hg' : (0:ℚ) ≤ (rgb.2.1 : ℚ) / 255 := by positivity
  have hb' : (0:ℚ) ≤ (rgb.2.2 : ℚ) / 255 := by positivity
  obtain ⟨hs0, hs1⟩ := rgb_to_hsv_s_mem _ _ _ hr' hg' hb'
  obtain ⟨c1, c2, c3⟩ := hsv_to_rgb_nonneg _ _ _
    (rgb_to_hsv_h_nonneg ((rgb.1 : ℚ) / 255) ((rgb.2.1 : ℚ) / 255) ((rgb.2.2 : ℚ) / 255))
    hs0 hs1 (le_max_left 0 _)
  exact ⟨mul_nonneg c1 (by norm_num), mul_nonneg c2 (by norm_num),
    mul_nonneg c3 (by norm_num)⟩

/-- The exact lightened channels are nonnegative for nonnegative input
channels and factor. -/
theorem lightenExact_nonneg (rgb : ℤ × ℤ × ℤ) (factor : ℚ)
    (hr : 0 ≤ rgb.1) (hg : 0 ≤ rgb.2.1) (hb : 0 ≤ rgb.2.2) (hf : 0 ≤ factor) :
    0 ≤ (lightenExact rgb factor).1 ∧ 0 ≤ (lightenExact rgb factor).2.1 ∧
    0 ≤ (lightenExact rgb factor).2.2 := by
  simp only [lightenExact]
  have hr' : (0:ℚ) ≤ (rgb.1 : ℚ) / 255 := by positivity
  have hg' : (0:ℚ) ≤ (rgb.2.1 : ℚ) / 255 := by positivity
  have hb' : (0:ℚ) ≤ (rgb.2.2 : ℚ) / 255 := by positivity
  obtain ⟨hs0, hs1⟩ := rgb_to_hsv_s_mem _ _ _ hr' hg' hb'
  have hv := rgb_to_hsv_v_nonneg ((rgb.1 : ℚ) / 255) ((rgb.2.1 : ℚ) / 255)
    ((rgb.2.2 : ℚ) / 255) hr'
  obtain ⟨c1, c2, c3⟩ := hsv_to_rgb_nonneg _ _ _
    (rgb_to_hsv_h_nonneg ((rgb.1 : ℚ) / 255) ((rgb.2.1 : ℚ) / 255) ((rgb.2.2 : ℚ) / 255))
    hs0 hs1 (le_min (show (0:ℚ) ≤ 1 by norm_num) (add_nonneg hv hf))
  exact ⟨mul_nonneg c1 (by norm_num), mul_nonneg c2 (by norm_num),
    mul_nonneg c3 (by norm_num)⟩

/-- Exact value of the darkening used by the worked gradient example. -/
theorem darkenExact_demo100 :
    darkenExact (100, 150, 200) (15/100) = (647/8, 1941/16, 647/4) := by
  unfold darkenExact rgb_to_hsv hsv_to_rgb pyTrunc
  norm_num [max_def, min_def, Int.fract]

/-- Value of `darken_color` on the worked example. -/
theorem darken_color_demo100 :
    darken_color (100, 150, 200) (15/100) = (80, 121, 161) := by
  simp only [darken_color, darkenExact_demo100]
  norm_num [pyTrunc]

end Runsh

namespace Runsh

/-- C3 counterexample: `darken_color` truncates each channel with Python
`int()` instead of rounding to nearest.  On `(100,150,200)` with factor
`0.15` the exact back-converted channels are `(80.875, 121.3125, 161.75)`;
the code returns `(80, 121, 161)` while rounding to nearest would give
`(81, 121, 162)`. -/
theorem C3_counterexample :
    darken_color (100, 150, 200) (15/100) = (80, 121, 161) ∧
    darken_color_rounded (100, 150, 200) (15/100) = (81, 121, 162) ∧
    ((80 : ℤ) ≠ 81) := by
  refine ⟨darken_color_demo100, ?_, by decide⟩
  simp only [darken_color_rounded, darkenExact_demo100]
  norm_num [specRound, round_eq]

/-- C3 amended: for channels in `[0,255]` and factor in `[0,1]`,
`lighten_color` / `darken_color` perform the HSV round trip with the
clamped value channel and then **truncate** each resulting channel toward
zero (equivalently floor it, the exact channels being nonnegative) — not
round it to the nearest integer. -/
theorem C3_amended_truncation (r g b : ℤ) (factor : ℚ)
    (hr : 0 ≤ r ∧ r ≤ 255) (hg : 0 ≤ g ∧ g ≤ 255) (hb : 0 ≤ b ∧ b ≤ 255)
    (hf : 0 ≤ factor ∧ factor ≤ 1) :
    lighten_color (r, g, b) factor =
      (⌊(lightenExact (r, g, b) factor).1⌋, ⌊(lightenExact (r, g, b) factor).2.1⌋,
       ⌊(lightenExact (r, g, b) factor).2.2⌋) ∧
    darken_color (r, g, b) factor =
      (⌊(darkenExact (r, g, b) factor).1⌋, ⌊(darkenExact (r, g, b) factor).2.1⌋,
       ⌊(darkenExact (r, g, b) factor).2.2⌋) := by
  obtain ⟨l1, l2, l3⟩ := lightenExact_nonneg (r, g, b) factor hr.1 hg.1 hb.1 hf.1
  obtain ⟨d1, d2, d3⟩ := darkenExact_nonneg (r, g, b) factor hr.1 hg.1 hb.1
  constructor
  · simp only [lighten_color]
    rw [pyTrunc_of_nonneg l1, pyTrunc_of_nonneg l2, pyTrunc_of_nonneg l3]
  · simp only [darken_color]
    rw [pyTrunc_of_nonneg d1, pyTrunc_of_nonneg d2, pyTrunc_of_nonneg d3]

/-- Witness for C3 at the worked example. -/
theorem C3_amended_truncation_witness :
    lighten_color (100, 150, 200) (15/100) =
      (⌊(lightenExact (100, 150, 200) (15/100)).1⌋,
       ⌊(lightenExact (100, 150, 200) (15/100)).2.1⌋,
       ⌊(lightenExact (100, 150, 200) (15/100)).2.2⌋) ∧
    darken_color (100, 150, 200) (15/100) =
      (⌊(darkenExact (100, 150, 200) (15/100)).1⌋,
       ⌊(darkenExact (100, 150, 200) (15/100)).2.1⌋,
       ⌊(darkenExact (100, 150, 200) (15/100)).2.2⌋) :=
  C3_amended_truncation 100 150 200 (15/100)
    (by norm_num) (by norm_num) (by norm_num) (by norm_num)

/-- C4 counterexample: with gradient enabled the bottom row is **not**
`darken_color bg 0.15`.  For a 2-pixel-high canvas and `bg = (100,150,200)`
the bottom row (row 1) is the midpoint `(90, 135, 180)` while
`darken_color bg 0.15 = (80, 121, 161)`. -/
theorem C4_counterexample :
    gradientRow 2 (100, 150, 200) 1 = (90, 135, 180) ∧
    darken_color (100, 150, 200) (15/100) = (80, 121, 161) ∧
    ((90 : ℤ) ≠ 80) := by
  refine ⟨?_, darken_color_demo100, by decide⟩
  simp only [gradientRow, darken_color_demo100]
  norm_num [pyTrunc]

/-- C4 amended: row 0 of the gradient equals `bgColor` exactly; every row
`y < height` carries the per-channel linear interpolation between
`bgColor` and `darken_color bgColor 0.15` at ratio `y / height`, truncated
with Python `int()` (equivalently floored); the bottom row is the
interpolation at ratio `(height-1)/height`, which in general differs from
`darken_color bgColor 0.15`. -/
theorem C4_amended_gradient (size : ℕ) (bg : ℤ × ℤ × ℤ) (y : ℕ)
    (hsize : 0 < size) (hy : y < size)
    (hr : 0 ≤ bg.1 ∧ bg.1 ≤ 255) (hg : 0 ≤ bg.2.1 ∧ bg.2.1 ≤ 255)
    (hb : 0 ≤ bg.2.2 ∧ bg.2.2 ≤ 255) :
    gradientRow size bg 0 = bg ∧
    gradientRow size bg y =
      (⌊(bg.1 : ℚ) * (1 - (y : ℚ) / (size : ℚ)) +
          ((darken_color bg (15/100)).1 : ℚ) * ((y : ℚ) / (size : ℚ))⌋,
       ⌊(bg.2.1 : ℚ) * (1 - (y : ℚ) / (size : ℚ)) +
          ((darken_color bg (15/100)).2.1 : ℚ) * ((y : ℚ) / (size : ℚ))⌋,
       ⌊(bg.2.2 : ℚ) * (1 - (y : ℚ) / (size : ℚ)) +
          ((darken_color bg (15/100)).2.2 : ℚ) * ((y : ℚ) / (size : ℚ))⌋) := by
  have hs0 : (0:ℚ) < (size : ℚ) := by exact_mod_cast hsize
  have hr0 : (0:ℚ) ≤ (y : ℚ) / (size : ℚ) := div_nonneg (Nat.cast_nonneg y) hs0.le
  have hr1 : (y : ℚ) / (size : ℚ) ≤ 1 := by
    rw [div_le_one hs0]
    exact_mod_cast hy.le
  obtain ⟨dn1, dn2, dn3⟩ := darkenExact_nonneg bg (15/100) hr.1 hg.1 hb.1
  have d1 : (0:ℚ) ≤ ((darken_color bg (15/100)).1 : ℚ) := by
    simp only [darken_color]
    rw [pyTrunc_of_nonneg dn1]
    exact_mod_cast Int.floor_nonneg.mpr dn1
  have d2 : (0:ℚ) ≤ ((darken_color bg (15/100)).2.1 : ℚ) := by
    simp only [darken_color]
    rw [pyTrunc_of_nonneg dn2]
    exact_mod_cast Int.floor_nonneg.mpr dn2
  have d3 : (0:ℚ) ≤ ((darken_color bg (15/100)).2.2 : ℚ) := by
    simp only [darken_color]
    rw [pyTrunc_of_nonneg dn3]
    exact_mod_cast Int.floor_nonneg.mpr dn3
  have bg1 : (0:ℚ) ≤ (bg.1 : ℚ) := by exact_mod_cast hr.1
  have bg2 : (0:ℚ) ≤ (bg.2.1 : ℚ) := by exact_mod_cast hg.1
  have bg3 : (0:ℚ) ≤ (bg.2.2 : ℚ) := by exact_mod_cast hb.1
  constructor
  · simp [gradientRow, pyTrunc_intCast]
  · simp only [gradientRow]
    rw [pyTrunc_of_nonneg
          (add_nonneg (mul_nonneg bg1 (by linarith)) (mul_nonneg d1 hr0)),
        pyTrunc_of_nonneg
          (add_nonneg (mul_nonneg bg2 (by linarith)) (mul_nonneg d2 hr0)),
        pyTrunc_of_nonneg
          (add_nonneg (mul_nonneg bg3 (by linarith)) (mul_nonneg d3 hr0))]

/-- Witness for C4 at the worked example. -/
theorem C4_amended_gradient_witness :
    gradientRow 2 (100, 150, 200) 0 = (100, 150, 200) ∧
    gradientRow 2 (100, 150, 200) 1 =
      (⌊(100 : ℚ) * (1 - (1 : ℚ) / (2 : ℚ)) +
          ((darken_color (100, 150, 200) (15/100)).1 : ℚ) * ((1 : ℚ) / (2 : ℚ))⌋,
       ⌊(150 : ℚ) * (1 - (1 : ℚ) / (2 : ℚ)) +
          ((darken_color (100, 150, 200) (15/100)).2.1 : ℚ) * ((1 : ℚ) / (2 : ℚ))⌋,
       ⌊(200 : ℚ) * (1 - (1 : ℚ) / (2 : ℚ)) +
          ((darken_color (100, 150, 200) (15/100)).2.2 : ℚ) * ((1 : ℚ) / (2 : ℚ))⌋) := by
  have h := C4_amended_gradient 2 (100, 150, 200) 1 (by norm_num) (by norm_num)
    (by norm_num) (by norm_num) (by norm_num)
  exact ⟨h.1, by simpa using h.2⟩

end Runsh
